import Mathlib

/-!
Verification development for `_build/jupyter_execute/stat/hazard_models.py`,
the executed notebook of the "Hazard models" lesson.

The notebook is six code cells (`In[1]`..`In[6]`).  We embed them at two
levels:

1. A statement-level model of each cell: every Python statement is recorded
   with the global names it reads (in evaluation order), the global names it
   binds, and its effect on the NumPy global random-number-generator state.
   Executing a statement raises `NameError` at the first read of an unbound
   name, exactly as the Python interpreter does.  The RNG state is abstracted
   as a natural number: `np.random.seed(n)` replaces the state by `n` and each
   `np.random.randn` call advances it by one (the concrete successor is
   irrelevant for every property proved below, only "replace" vs "advance"
   matters).

2. Real-valued definitions of the numeric content of the cells: the
   normal-distribution CDF curves of `In[1]`/`In[2]`, the constant-risk
   survival values of `In[3]`, and the synthesized data array of `In[6]`.
-/

namespace HazardModels

/-- The global names occurring in the notebook: imported module/function
names, variables bound by assignment, the two Python builtins the cells use
(`len`, `range`), and the two names `rcParams` and `cycler` that `In[6]`
reads but no cell ever binds. -/
inductive Name where
  | norm | plt | np | rv | t | fig | ax | m0
  | load_waltons | N | data | cmap | rcParams | cycler
  | Line2D | custom_lines | lines | len | range
deriving DecidableEq, Repr

/-- Kind of a Python statement, used to classify what a cell does. -/
inductive SKind where
  /-- an `import` / `from ... import ...` statement -/
  | importK
  /-- constructs a parametric distribution object (`rv = norm(...)`) -/
  | constructDistK
  /-- builds a sample grid (`t = np.linspace(...)`) -/
  | gridEvalK
  /-- plots a curve whose values are the distribution's CDF (`ax.plot(t, rv.cdf(t))`) -/
  | cdfPlotK
  /-- any other plotting-library call (figure setup, labels, plot, legend) -/
  | plotK
  /-- binds a numeric constant (`m0 = 0.1`, `N = 10`) -/
  | constK
  /-- loads the bundled example dataset (`load_waltons()`) -/
  | loadDataK
  /-- seeds the global RNG (`np.random.seed(...)`) -/
  | seedK
  /-- synthesizes a data array (`data = ...`) -/
  | synthK
  /-- mutates plotting style configuration (`cmap = ...`, `rcParams[...] = ...`) -/
  | styleK
deriving DecidableEq, Repr

/-- Effect of a statement on NumPy's global RNG state. -/
inductive RngEff where
  | noEffect
  | seed (n : ℕ)
  | draw (calls : ℕ)
deriving DecidableEq, Repr

/-- A straight-line Python statement: its kind, the global names it reads in
evaluation order, the global names it binds, and its RNG effect. -/
structure SimpleStmt where
  kind : SKind
  reads : List Name
  binds : List Name
  eff : RngEff
deriving DecidableEq, Repr

/-- A Python statement.  The `tryExcept` constructor exists so that "the code
contains no `try`/`except`" is a statement about the program, not about the
statement type; no cell of the notebook uses it. -/
inductive Stmt where
  | simple (s : SimpleStmt)
  | tryExcept (body handler : List SimpleStmt)
deriving DecidableEq, Repr

/-- Abbreviation for building a straight-line statement. -/
def stm (k : SKind) (reads binds : List Name) (eff : RngEff := .noEffect) : Stmt :=
  .simple ⟨k, reads, binds, eff⟩

/-- The only runtime error the model raises: Python's `NameError`, carrying
the unresolvable name. -/
inductive PyErr where
  | nameError (n : Name)
deriving DecidableEq, Repr

/-- Interpreter state: the bound global names and the NumPy global RNG
state (abstracted as a natural number). -/
structure PyState where
  env : List Name
  rng : ℕ
deriving Repr

/-- Modelled NumPy RNG semantics: seeding replaces the state by a function of
the seed alone; each draw call advances the state. -/
def applyEff : RngEff → ℕ → ℕ
  | .noEffect, r => r
  | .seed n, _ => n
  | .draw calls, r => r + calls

/-- Run one straight-line statement: raise `NameError` at the first read of
an unbound name (leaving the state as it was), otherwise bind the names it
binds and apply its RNG effect. -/
def runSimple (s : SimpleStmt) (st : PyState) : PyState × Option PyErr :=
  match s.reads.find? (fun n => !(st.env.contains n)) with
  | some n => (st, some (.nameError n))
  | none => ({ env := st.env ++ s.binds, rng := applyEff s.eff st.rng }, none)

/-- Run a list of straight-line statements, stopping at the first error (the
state at the raise point is kept: bindings and RNG mutations made before the
raise survive it, as in Python). -/
def runSimples : List SimpleStmt → PyState → PyState × Option PyErr
  | [], st => (st, none)
  | s :: rest, st =>
    match runSimple s st with
    | (st1, none) => runSimples rest st1
    | (st1, some e) => (st1, some e)

/-- Run a statement.  A `tryExcept` runs its handler iff its body raised. -/
def runStmt : Stmt → PyState → PyState × Option PyErr
  | .simple s, st => runSimple s st
  | .tryExcept body handler, st =>
    match runSimples body st with
    | (st1, none) => (st1, none)
    | (st1, some _) => runSimples handler st1

/-- Run a cell (a list of statements), stopping at the first uncaught error. -/
def runStmts : List Stmt → PyState → PyState × Option PyErr
  | [], st => (st, none)
  | s :: rest, st =>
    match runStmt s st with
    | (st1, none) => runStmts rest st1
    | (st1, some e) => (st1, some e)

/-- Cell `In[1]`:
```
from scipy.stats import norm; import matplotlib.pyplot as plt; import numpy as np
rv = norm(loc=4, scale=1.5)
t = np.linspace(0, norm.ppf(0.99, loc=4, scale=1.5), 100)
fig, ax = plt.subplots(1, 1)
ax.set_xlabel('Time')
ax.set_ylabel('Probability to die')
ax.plot(t, rv.cdf(t));
``` -/
def cellIn1 : List Stmt :=
  [ stm .importK [] [.norm]
  , stm .importK [] [.plt]
  , stm .importK [] [.np]
  , stm .constructDistK [.norm] [.rv]
  , stm .gridEvalK [.np, .norm] [.t]
  , stm .plotK [.plt] [.fig, .ax]
  , stm .plotK [.ax] []
  , stm .plotK [.ax] []
  , stm .cdfPlotK [.ax, .t, .rv] [] ]

/-- Cell `In[2]`:
```
rv = norm(loc=4, scale=1.5)
t = np.linspace(0, norm.ppf(0.99, loc=4, scale=1.5), 100)
fig, ax = plt.subplots(1, 1)
ax.set_xlabel('Time')
ax.set_ylabel('Probability to survive')
ax.plot(t, 1 - rv.cdf(t));
``` -/
def cellIn2 : List Stmt :=
  [ stm .constructDistK [.norm] [.rv]
  , stm .gridEvalK [.np, .norm] [.t]
  , stm .plotK [.plt] [.fig, .ax]
  , stm .plotK [.ax] []
  , stm .plotK [.ax] []
  , stm .cdfPlotK [.ax, .t, .rv] [] ]

/-- Cell `In[3]`:
```
t = np.linspace(0, 20, 200)
fig, ax = plt.subplots(1, 2, figsize=(12, 5))
m0 = 0.1
ax[0].plot(t, np.ones(len(t)) * m0)
ax[0].set_xlabel('Time')
ax[0].set_ylabel('Mortality risk')
ax[1].plot(t, np.exp(-m0*t))
ax[1].set_xlabel('Time')
ax[1].set_ylabel('Probability of survival');
``` -/
def cellIn3 : List Stmt :=
  [ stm .gridEvalK [.np] [.t]
  , stm .plotK [.plt] [.fig, .ax]
  , stm .constK [] [.m0]
  , stm .plotK [.ax, .t, .np, .len, .m0] []
  , stm .plotK [.ax] []
  , stm .plotK [.ax] []
  , stm .plotK [.ax, .t, .np, .m0] []
  , stm .plotK [.ax] []
  , stm .plotK [.ax] [] ]

/-- Cell `In[4]`:
```
from lifelines.datasets import load_waltons
``` -/
def cellIn4 : List Stmt :=
  [ stm .importK [] [.load_waltons] ]

/-- Cell `In[5]`:
```
load_waltons()
``` -/
def cellIn5 : List Stmt :=
  [ stm .loadDataK [.load_waltons] [] ]

/-- Cell `In[6]`:
```
np.random.seed(19680801)
N = 10
data = [np.logspace(0, 1, 100) + np.random.randn(100) + ii for ii in range(N)]
data = np.array(data).T
cmap = plt.cm.coolwarm
rcParams['axes.prop_cycle'] = cycler(color=cmap(np.linspace(0, 1, N)))
from matplotlib.lines import Line2D
custom_lines = [Line2D([0], [0], color=cmap(0.), lw=4),
                Line2D([0], [0], color=cmap(.5), lw=4),
                Line2D([0], [0], color=cmap(1.), lw=4)]
fig, ax = plt.subplots(figsize=(10, 5))
lines = ax.plot(data)
ax.legend(custom_lines, ['Cold', 'Medium', 'Hot']);
```
The comprehension makes `N = 10` calls to `np.random.randn` (`ii` is local to
the comprehension, not a global).  In the `rcParams` assignment the
right-hand side is evaluated first and the callee `cycler` is looked up
before its argument, so `cycler` is the first name read. -/
def cellIn6 : List Stmt :=
  [ stm .seedK [.np] [] (.seed 19680801)
  , stm .constK [] [.N]
  , stm .synthK [.range, .N, .np] [.data] (.draw 10)
  , stm .synthK [.np, .data] [.data]
  , stm .styleK [.plt] [.cmap]
  , stm .styleK [.cycler, .cmap, .np, .N, .rcParams] []
  , stm .importK [] [.Line2D]
  , stm .plotK [.Line2D, .cmap] [.custom_lines]
  , stm .plotK [.plt] [.fig, .ax]
  , stm .plotK [.ax, .data] [.lines]
  , stm .plotK [.ax, .custom_lines] [] ]

/-- The six code cells of the document, in order. -/
def programCells : List (List Stmt) :=
  [cellIn1, cellIn2, cellIn3, cellIn4, cellIn5, cellIn6]

/-- Interpreter state before any cell has run: only the builtins the cells
use are bound, and the RNG is in some arbitrary state (we pick `0`). -/
def initState : PyState := { env := [.len, .range], rng := 0 }

/-- Run the whole document in order, stopping at the first uncaught error. -/
def runProgram (st : PyState) : PyState × Option PyErr :=
  runStmts (programCells.flatten) st

/-- State reached after running cells `In[1]`..`In[5]` in order from the
initial state. -/
def stateAfterIn5 : PyState :=
  (runStmts (List.flatten [cellIn1, cellIn2, cellIn3, cellIn4, cellIn5]) initState).1

/-- Whether a statement is a straight-line statement (not a `try`/`except`). -/
def stmtSimple : Stmt → Bool
  | .simple _ => true
  | .tryExcept _ _ => false

/-- RNG effect of a statement, `try`/`except` aside. -/
def stmtNoRng : Stmt → Bool
  | .simple s => s.eff == .noEffect
  | .tryExcept _ _ => false

/-- Names a statement binds. -/
def stmtBinds : Stmt → List Name
  | .simple s => s.binds
  | .tryExcept body handler => ((body ++ handler).map SimpleStmt.binds).flatten

/-- Action (a) of the spec: the cell constructs a parametric distribution or
evaluates its CDF over the sample grid. -/
def hasDistCdf (cell : List Stmt) : Bool :=
  cell.any fun s =>
    match s with
    | .simple s => s.kind == .constructDistK || s.kind == .cdfPlotK
    | _ => false

/-- Action (b) of the spec: the cell plots a curve. -/
def hasPlot (cell : List Stmt) : Bool :=
  cell.any fun s =>
    match s with
    | .simple s => s.kind == .plotK || s.kind == .cdfPlotK
    | _ => false

/-- Action (c) of the spec: the cell loads the bundled example dataset. -/
def hasLoadData (cell : List Stmt) : Bool :=
  cell.any fun s =>
    match s with
    | .simple s => s.kind == .loadDataK
    | _ => false

/-- The cell contains a statement of the given kind. -/
def hasKind (k : SKind) (cell : List Stmt) : Bool :=
  cell.any fun s =>
    match s with
    | .simple s => s.kind == k
    | _ => false

/-- The cell performs exactly one of the spec's three actions. -/
def exactlyOneAction (cell : List Stmt) : Bool :=
  (hasDistCdf cell && !hasPlot cell && !hasLoadData cell) ||
  (!hasDistCdf cell && hasPlot cell && !hasLoadData cell) ||
  (!hasDistCdf cell && !hasPlot cell && hasLoadData cell)

/-- Running a list of straight-line statements with no RNG effect leaves the
RNG state unchanged (whether or not an error was raised). -/
theorem runSimples_rng_of_noRng (ss : List SimpleStmt) (st : PyState)
    (h : ss.all (fun s => s.eff == RngEff.noEffect) = true) :
    (runSimples ss st).1.rng = st.rng := by
  induction ss generalizing st with
  | nil => rfl
  | cons s rest ih =>
    simp only [List.all_cons, Bool.and_eq_true, beq_iff_eq] at h
    unfold runSimples runSimple
    cases hf : s.reads.find? (fun n => !(st.env.contains n)) with
    | some n => simp
    | none =>
      simp only
      rw [ih _ (by simpa using h.2)]
      have he : s.eff = RngEff.noEffect := by simpa using h.1
      simp [applyEff, he]

/-- Running a cell of straight-line statements with no RNG effect leaves the
RNG state unchanged. -/
theorem runStmts_rng_of_noRng (cell : List Stmt) (st : PyState)
    (h : cell.all stmtNoRng = true) :
    (runStmts cell st).1.rng = st.rng := by
  induction cell generalizing st with
  | nil => rfl
  | cons s rest ih =>
    simp only [List.all_cons, Bool.and_eq_true] at h
    unfold runStmts
    cases s with
    | simple s0 =>
      simp only [runStmt]
      have hrun : (runSimple s0 st).1.rng = st.rng := by
        unfold runSimple
        cases hf : s0.reads.find? (fun n => !(st.env.contains n)) with
        | some n => simp
        | none =>
          have he : s0.eff = RngEff.noEffect := by
            have h1 := h.1; simp only [stmtNoRng, beq_iff_eq] at h1; exact h1
          simp [applyEff, he]
      cases hr : runSimple s0 st with
      | mk st1 err =>
        cases err with
        | none =>
          simp only
          rw [ih _ h.2]
          simpa [hr] using hrun
        | some e => simpa [hr] using hrun
    | tryExcept body handler => simp [stmtNoRng] at h

/-- In a cell of straight-line statements, if the statements before `s` ran
without error and `s` raises `e`, then the whole cell's result is `e`,
unchanged: there is no construct that could intercept it. -/
theorem runStmts_error_propagates (pre : List Stmt) (s : Stmt) (post : List Stmt)
    (st : PyState) (e : PyErr)
    (hsimple : (pre ++ s :: post).all stmtSimple = true)
    (hpre : (runStmts pre st).2 = none)
    (hs : (runStmt s (runStmts pre st).1).2 = some e) :
    (runStmts (pre ++ s :: post) st).2 = some e := by
  induction pre generalizing st with
  | nil =>
    have hs1 : (runStmt s st).2 = some e := hs
    show (runStmts (s :: post) st).2 = some e
    unfold runStmts
    cases hr : runStmt s st with
    | mk st1 err =>
      rw [hr] at hs1
      cases err with
      | none => simp at hs1
      | some e0 => simpa using hs1
  | cons p rest ih =>
    simp only [List.cons_append, List.all_cons, Bool.and_eq_true] at hsimple
    show (runStmts (p :: (rest ++ s :: post)) st).2 = some e
    unfold runStmts at hpre hs ⊢
    cases hr : runStmt p st with
    | mk st1 err =>
      rw [hr] at hpre hs
      cases err with
      | none =>
        exact ih st1 hsimple.2 hpre hs
      | some e0 => simp at hpre

/-! ### Real-valued content of the cells -/

/-- `np.linspace(a, b, n)`: the `i`-th of `n` evenly spaced samples from `a`
to `b` inclusive, `a + (b - a) * i / (n - 1)`. -/
noncomputable def linspace (a b : ℝ) (n : ℕ) (i : ℕ) : ℝ :=
  a + (b - a) * i / ((n : ℝ) - 1)

/-- `np.logspace(a, b, n)`: samples spaced evenly on a log scale,
`10 ** linspace(a, b, n)`. -/
noncomputable def logspace (a b : ℝ) (n : ℕ) (i : ℕ) : ℝ :=
  (10 : ℝ) ^ linspace a b n i

/-- The density of the normal distribution with mean `μ` and standard
deviation `σ` (what `scipy.stats.norm(loc=μ, scale=σ)` has as `pdf`). -/
noncomputable def normalPdf (μ σ x : ℝ) : ℝ :=
  Real.exp (-((x - μ) ^ 2) / (2 * σ ^ 2)) / (σ * Real.sqrt (2 * Real.pi))

/-- The cumulative distribution function of `scipy.stats.norm(loc=μ, scale=σ)`:
the integral of the density up to `x`. -/
noncomputable def normalCdf (μ σ x : ℝ) : ℝ :=
  ∫ u in Set.Iic x, normalPdf μ σ u

/-- `scipy.stats.norm.ppf(p, loc=μ, scale=σ)`: the quantile function, the
least point at which the CDF reaches `p`. -/
noncomputable def normalPpf (μ σ p : ℝ) : ℝ :=
  sInf {x : ℝ | p ≤ normalCdf μ σ x}

/-- `In[1]`: `rv = norm(loc=4, scale=1.5)` — the location parameter. -/
noncomputable def in1Loc : ℝ := 4

/-- `In[1]`: `rv = norm(loc=4, scale=1.5)` — the scale parameter. -/
noncomputable def in1Scale : ℝ := 1.5

/-- `In[1]`: the grid `t = np.linspace(0, norm.ppf(0.99, loc=4, scale=1.5), 100)`. -/
noncomputable def in1T (i : Fin 100) : ℝ :=
  linspace 0 (normalPpf 4 1.5 0.99) 100 i

/-- `In[1]`: the plotted values `rv.cdf(t)`. -/
noncomputable def in1Curve (i : Fin 100) : ℝ :=
  normalCdf in1Loc in1Scale (in1T i)

/-- `In[2]`: `rv = norm(loc=4, scale=1.5)` — the location parameter. -/
noncomputable def in2Loc : ℝ := 4

/-- `In[2]`: `rv = norm(loc=4, scale=1.5)` — the scale parameter. -/
noncomputable def in2Scale : ℝ := 1.5

/-- `In[2]`: the grid `t = np.linspace(0, norm.ppf(0.99, loc=4, scale=1.5), 100)`. -/
noncomputable def in2T (i : Fin 100) : ℝ :=
  linspace 0 (normalPpf 4 1.5 0.99) 100 i

/-- `In[2]`: the plotted values `1 - rv.cdf(t)`. -/
noncomputable def in2Curve (i : Fin 100) : ℝ :=
  1 - normalCdf in2Loc in2Scale (in2T i)

/-- `In[3]`: `m0 = 0.1`. -/
noncomputable def m0 : ℝ := 0.1

/-- `In[3]`: the constant-hazard survival function `np.exp(-m0*t)` as a
function of real time. -/
noncomputable def S (t : ℝ) : ℝ := Real.exp (-m0 * t)

/-- `In[3]`: the grid `t = np.linspace(0, 20, 200)`. -/
noncomputable def in3T (i : Fin 200) : ℝ := linspace 0 20 200 i

/-- `In[3]`: the plotted survival values `np.exp(-m0*t)` on the grid. -/
noncomputable def in3Surv (i : Fin 200) : ℝ := Real.exp (-m0 * in3T i)

/-- Modelled NumPy seeding, as in `applyEff`: `np.random.seed(n)` replaces
whatever the previous global state was by a function of `n` alone. -/
def npSeed (n : ℕ) (_prev : ℕ) : ℕ := n

/-- `In[6]`: one row of the comprehension
`np.logspace(0, 1, 100) + np.random.randn(100) + ii`, given the values `draw s`
that `np.random.randn(100)` produces at RNG state `s`. -/
noncomputable def cell6Row (draw : ℕ → Fin 100 → ℝ) (s : ℕ) (ii : ℕ) : Fin 100 → ℝ :=
  fun k => logspace 0 1 100 k + draw s k + (ii : ℝ)

/-- `In[6]`: the synthesized array
`data = [np.logspace(0, 1, 100) + np.random.randn(100) + ii for ii in range(N)]`
(with `N = 10`), executed after `np.random.seed(19680801)` from prior RNG
state `s0`.  `draw` gives the values of one `randn(100)` call at a state and
`next` the state transition of one call. -/
noncomputable def cell6Data (draw : ℕ → Fin 100 → ℝ) (next : ℕ → ℕ) (s0 : ℕ) :
    List (Fin 100 → ℝ) :=
  (List.range 10).map fun ii => cell6Row draw (next^[ii] (npSeed 19680801 s0)) ii

/-! ### The claims -/

/-- **C1.** For the constant-hazard model of `In[3]` (`m0 = 0.1`), the
survival function `S(t) = exp(-m0*t)` satisfies the hazard equation
`m(t) = -S'(t)/S(t)`: at every `t ≥ 0`, the negative derivative of `S`
divided by `S` equals the constant `m0`. -/
theorem C1_constant_hazard_eq (t : ℝ) (_h : 0 ≤ t) : -deriv S t / S t = m0 := by
  have h1 : HasDerivAt (fun x : ℝ => -m0 * x) (-m0) t := by
    simpa using (hasDerivAt_id t).const_mul (-m0)
  have hd : HasDerivAt S (Real.exp (-m0 * t) * -m0) t := h1.exp
  rw [hd.deriv]
  have he : Real.exp (-m0 * t) ≠ 0 := Real.exp_ne_zero _
  unfold S
  field_simp

/-- Witness for C1 at `t = 1`. -/
theorem C1_witness : (0 : ℝ) ≤ 1 ∧ -deriv S 1 / S 1 = m0 :=
  ⟨zero_le_one, C1_constant_hazard_eq 1 zero_le_one⟩

/-- **C10.** The constant-risk survival values of `In[3]`, `exp(-0.1*t)` on
the grid `t = linspace(0, 20, 200)`, satisfy the survival-curve invariant:
every value lies in `(0, 1]`, the value at `t = 0` is `1`, and the values
strictly decrease along the grid. -/
theorem C10_survival_invariants :
    (∀ i : Fin 200, 0 < in3Surv i ∧ in3Surv i ≤ 1) ∧
    in3Surv 0 = 1 ∧
    (∀ i j : Fin 200, i < j → in3Surv j < in3Surv i) := by
  have hm : (0 : ℝ) < m0 := by norm_num [m0]
  have hT : ∀ i : Fin 200, in3T i = 20 * (i : ℕ) / 199 := by
    intro i
    unfold in3T linspace
    norm_num
  refine ⟨fun i => ⟨Real.exp_pos _, ?_⟩, ?_, fun i j hij => ?_⟩
  · rw [in3Surv, Real.exp_le_one_iff, hT i]
    have hi : (0 : ℝ) ≤ 20 * (i : ℕ) / 199 := by positivity
    nlinarith
  · rw [in3Surv, hT 0]
    norm_num [Real.exp_zero]
  · rw [in3Surv, in3Surv, Real.exp_lt_exp, hT i, hT j]
    have hij' : ((i : ℕ) : ℝ) < ((j : ℕ) : ℝ) := by
      exact_mod_cast (Fin.lt_def.mp hij)
    nlinarith

/-- Witness for C10's strict-decrease clause at adjacent grid points. -/
theorem C10_witness : in3Surv 1 < in3Surv 0 :=
  C10_survival_invariants.2.2 0 1 (by decide)

/-- **C2, refuted.** The claim says every cell executed in isolation resolves
all its names — in particular `In[6]` with its references to `rcParams` and
`cycler`.  In fact `In[6]` run in isolation raises `NameError` already at
`np`. -/
theorem C2_counterexample :
    (runStmts cellIn6 initState).2 = some (.nameError .np) := by decide

/-- **C2, amended.** Only `In[1]` and `In[4]` resolve all their names in
isolation; `In[2]`, `In[3]`, `In[5]` and `In[6]` read names bound by earlier
cells and raise `NameError` in isolation.  Moreover no cell binds `rcParams`
or `cycler`, so `In[6]` raises `NameError` on `cycler` even when every
earlier cell has run. -/
theorem C2_cells_not_self_contained :
    (runStmts cellIn1 initState).2 = none ∧
    (runStmts cellIn4 initState).2 = none ∧
    (runStmts cellIn2 initState).2 = some (.nameError .norm) ∧
    (runStmts cellIn3 initState).2 = some (.nameError .np) ∧
    (runStmts cellIn5 initState).2 = some (.nameError .load_waltons) ∧
    (runStmts cellIn6 initState).2 = some (.nameError .np) ∧
    (runProgram initState).2 = some (.nameError .cycler) ∧
    (programCells.all fun c => c.all fun s =>
      !((stmtBinds s).contains .rcParams) && !((stmtBinds s).contains .cycler)) = true := by
  decide

/-- **C3, refuted.** The claim says `In[5]`'s `load_waltons()` yields the same
result whether or not `In[4]` ran.  In fact without `In[4]` it raises
`NameError`, and with `In[4]` it completes. -/
theorem C3_counterexample :
    (runStmts cellIn5 initState).2 = some (.nameError .load_waltons) ∧
    (runStmts cellIn5 (runStmts cellIn4 initState).1).2 = none := by decide

/-- **C3, amended.** The cells are not mutually independent: `In[5]` needs
`In[4]`'s import and `In[6]` needs `In[1]`'s imports, and each fails with
`NameError` when those cells are omitted.  The dependence is only through the
imported names: given just the three module names `In[1]` imports (none of
its data bindings), `In[2]` and `In[3]` complete. -/
theorem C3_cell_dependencies :
    (runStmts cellIn5 initState).2 ≠ (runStmts cellIn5 (runStmts cellIn4 initState).1).2 ∧
    (runStmts cellIn6 initState).2 = some (.nameError .np) ∧
    (runStmts cellIn2 { env := initState.env ++ [.norm, .plt, .np], rng := 0 }).2 = none ∧
    (runStmts cellIn3 { env := initState.env ++ [.norm, .plt, .np], rng := 0 }).2 = none := by
  decide

/-- **C4, refuted.** The claim says all non-plotting global state — including
the NumPy global RNG state — is unchanged by executing any cell.  In fact
`In[6]`, run in the state reached after `In[1]`..`In[5]`, changes the RNG
state: `np.random.seed(19680801)` replaces it and the ten `randn` calls
advance it. -/
theorem C4_counterexample :
    (runStmts cellIn6 stateAfterIn5).1.rng ≠ stateAfterIn5.rng := by decide

/-- **C4, amended.** No cell other than `In[6]` touches the RNG state: every
cell of `In[1]`..`In[5]` leaves the RNG state of any starting state unchanged,
while `In[6]` changes it. -/
theorem C4_rng_mutation_localized :
    (∀ cell ∈ [cellIn1, cellIn2, cellIn3, cellIn4, cellIn5], ∀ st : PyState,
      (runStmts cell st).1.rng = st.rng) ∧
    (runStmts cellIn6 stateAfterIn5).1.rng ≠ stateAfterIn5.rng := by
  constructor
  · intro cell hc st
    fin_cases hc <;> exact runStmts_rng_of_noRng _ st (by decide)
  · decide

/-- Witness for C4's amended statement: `In[1]` from the initial state. -/
theorem C4_witness : (runStmts cellIn1 initState).1.rng = initState.rng :=
  C4_rng_mutation_localized.1 cellIn1 (List.Mem.head _) initState

/-- **C5 (the code bug).** Execution in document order does not run to
completion: cells `In[1]`..`In[5]` complete, but `In[6]` raises `NameError`
at `rcParams['axes.prop_cycle'] = cycler(...)`, because neither `rcParams`
nor `cycler` is ever imported — `cycler`, looked up first, is unresolvable. -/
theorem C5_in6_raises_nameError :
    (runStmts (List.flatten [cellIn1, cellIn2, cellIn3, cellIn4, cellIn5]) initState).2
      = none ∧
    (runProgram initState).2 = some (.nameError .cycler) := by decide

/-- **C6, refuted.** The claim says every cell performs exactly one of:
(a) construct a distribution and evaluate its CDF, (b) plot, (c) load the
example dataset.  In fact `In[1]` performs both (a) and (b). -/
theorem C6_counterexample :
    hasDistCdf cellIn1 = true ∧ hasPlot cellIn1 = true ∧
    exactlyOneAction cellIn1 = false := by decide

/-- **C6, amended.** The cells mix the three actions rather than performing
exactly one each: `In[1]` and `In[2]` both construct/evaluate a distribution
(a) and plot (b); `In[3]` plots (b); `In[4]` performs none of the three (it
only imports); `In[5]` loads the dataset (c); `In[6]` plots (b) and
additionally seeds the RNG, synthesizes a data array and mutates plot style;
and the cells are multi-statement, not single calls. -/
theorem C6_cell_actions :
    (hasDistCdf cellIn1, hasPlot cellIn1, hasLoadData cellIn1) = (true, true, false) ∧
    (hasDistCdf cellIn2, hasPlot cellIn2, hasLoadData cellIn2) = (true, true, false) ∧
    (hasDistCdf cellIn3, hasPlot cellIn3, hasLoadData cellIn3) = (false, true, false) ∧
    (hasDistCdf cellIn4, hasPlot cellIn4, hasLoadData cellIn4) = (false, false, false) ∧
    (hasKind .importK cellIn4 = true ∧ cellIn4.length = 1) ∧
    (hasDistCdf cellIn5, hasPlot cellIn5, hasLoadData cellIn5) = (false, false, true) ∧
    (hasDistCdf cellIn6, hasPlot cellIn6, hasLoadData cellIn6) = (false, true, false) ∧
    (hasKind .seedK cellIn6 && hasKind .synthK cellIn6 && hasKind .styleK cellIn6) = true ∧
    (programCells.all fun c => c.length == 1) = false := by decide

/-- **C7.** No error condition is handled anywhere: no cell contains a
`try`/`except`, and consequently in any cell of straight-line statements an
exception raised by a statement (after the statements before it completed)
is the whole cell's outcome, unchanged. -/
theorem C7_no_error_handling :
    (programCells.all fun c => c.all stmtSimple) = true ∧
    ∀ (pre : List Stmt) (s : Stmt) (post : List Stmt) (st : PyState) (e : PyErr),
      (pre ++ s :: post).all stmtSimple = true →
      (runStmts pre st).2 = none →
      (runStmt s (runStmts pre st).1).2 = some e →
      (runStmts (pre ++ s :: post) st).2 = some e :=
  ⟨by decide, runStmts_error_propagates⟩

/-- Witness for C7: the `NameError` of `In[5]`'s single statement run in
isolation propagates as the cell's outcome. -/
theorem C7_witness :
    (runStmts cellIn5 initState).2 = some (.nameError .load_waltons) :=
  C7_no_error_handling.2 [] (stm .loadDataK [.load_waltons] []) [] initState
    (.nameError .load_waltons) (by decide) (by decide) (by decide)

/-- **C8.** The survival curve of `In[2]` is the pointwise complement of the
death-probability curve of `In[1]`: both cells construct the same
distribution `norm(loc=4, scale=1.5)` and the same 100-point grid, and at
every grid point the two plotted values sum to `1`. -/
theorem C8_survival_complement :
    (in1Loc = in2Loc ∧ in1Scale = in2Scale) ∧
    (∀ i : Fin 100, in1T i = in2T i) ∧
    (∀ i : Fin 100, in2Curve i + in1Curve i = 1) := by
  refine ⟨⟨rfl, rfl⟩, fun i => rfl, fun i => ?_⟩
  unfold in1Curve in2Curve
  have h : normalCdf in1Loc in1Scale (in1T i) = normalCdf in2Loc in2Scale (in2T i) := rfl
  rw [h]
  ring

/-- **C9.** `In[6]` is deterministic: because `np.random.seed(19680801)`
replaces the RNG state before any drawing, the synthesized data array — and
the RNG state in which the cell leaves the interpreter — is the same for any
two initial RNG states, whatever the library's draw values and state
transition are. -/
theorem C9_in6_deterministic :
    ∀ (draw : ℕ → Fin 100 → ℝ) (next : ℕ → ℕ) (s1 s2 : ℕ),
      cell6Data draw next s1 = cell6Data draw next s2 ∧
      (runStmts cellIn6 { env := stateAfterIn5.env, rng := s1 }).1.rng
        = (runStmts cellIn6 { env := stateAfterIn5.env, rng := s2 }).1.rng :=
  fun _ _ _ _ => ⟨rfl, rfl⟩

end HazardModels
